import Mathlib

/-!
Verification development for the pyflowreg_session_gui repository.

This file gives a shallow embedding, in Lean 4, of the parts of the
repository that the verified properties talk about:

* `serialization.py` — `_convert_paths_to_strings`, `_maybe_relative` and the
  data transformation performed by `serialize_config_to_yaml` (the file-system
  write at the end is outside the embedding; we model the YAML data that is
  dumped).
* `local_runner.py` — the `LocalRunner` process-supervision methods
  (`is_running`, `start`, `_on_finished`) and the embedded `RUNNER_SCRIPT`
  worker program (its stage dispatch and its `sys.argv` parsing).
* `config_form.py` — the reflective form generator `SessionConfigForm`
  (`_create_editor` dispatch, the synthesized getter/setter/reset closures,
  `set_form_data` / `set_from_config` / `get_form_data`) together with
  `FlowOptionsEditor` and `PathPickerWidget`.

Python values flowing through these functions are modelled by the inductive
type `Value`.  Python `pathlib` path semantics (POSIX flavour) are modelled on
lists of path components.  External library functions that the code calls but
that are not part of the repository (`json.loads`, `json.dumps`) are passed as
explicit function parameters, so every theorem quantifies over their
behaviour.  Floating-point editors (`QDoubleSpinBox`) are outside the
embedding.
-/

/-- A Python value as it appears in the configuration dictionaries handled by
the repository: strings, ints, bools, `None`, `pathlib.Path` objects (carried
by their string form), lists, tuples and string-keyed dicts. -/
inductive Value where
  | vstr (s : String)
  | vint (n : Int)
  | vbool (b : Bool)
  | vnone
  | vpath (s : String)
  | vlist (vs : List Value)
  | vtuple (vs : List Value)
  | vdict (kvs : List (String × Value))

/-- First-match association-list lookup, modelling Python `dict.get` /
`dict[...]` on the dictionaries of the embedding (whose keys are unique). -/
def lookupKey : List (String × Value) → String → Option Value
  | [], _ => none
  | (k, v) :: rest, f => if k = f then some v else lookupKey rest f

/-! ### POSIX path model (`pathlib.PurePosixPath`)

A path string is parsed into components by splitting on `/`, discarding empty
components and `.` components, exactly as `pathlib` does; `..` components are
kept.  A path is absolute iff its string starts with `/`.  `relative_to` is
the lexical prefix test on components (with matching anchors), and rendering a
relative path with no components gives `.`. -/

/-- Split a character list on `/` (accumulator holds the current piece,
reversed). -/
def splitOnSlashAux : List Char → List Char → List (List Char)
  | [], acc => [acc.reverse]
  | c :: cs, acc =>
    if c = '/' then acc.reverse :: splitOnSlashAux cs []
    else splitOnSlashAux cs (c :: acc)

def splitOnSlash (cs : List Char) : List (List Char) :=
  splitOnSlashAux cs []

/-- The `parts` of `PurePosixPath(s)` (anchor excluded): non-empty, non-`.`
pieces of the string split on `/`. -/
def pathParts (s : String) : List (List Char) :=
  (splitOnSlash s.data).filter (fun p => decide (p ≠ [] ∧ p ≠ ['.']))

/-- `PurePosixPath(s).is_absolute()`: the string starts with `/`. -/
def isAbsolute (s : String) : Bool :=
  match s.data with
  | [] => false
  | c :: _ => decide (c = '/')

/-- `"/".join` of path components; an empty component list renders as `.`
(the string form of an empty relative path). -/
def joinParts1 : List (List Char) → List Char
  | [] => []
  | [p] => p
  | p :: ps => p ++ '/' :: joinParts1 ps

def joinParts (ps : List (List Char)) : List Char :=
  if ps = [] then ['.'] else joinParts1 ps

/-- Does the path string `s` lie under the path string `r`, in the sense in
which `PurePosixPath(s).relative_to(PurePosixPath(r))` succeeds for paths with
equal anchors: the components of `r` are a prefix of the components of `s`. -/
def underRootB (s r : String) : Bool :=
  (pathParts r).isPrefixOf (pathParts s)

/-- The string form of `PurePosixPath(s).relative_to(PurePosixPath(r))` when
it succeeds: the components of `s` with the leading components of `r`
removed. -/
def relStringOf (s r : String) : String :=
  String.mk (joinParts ((pathParts s).drop (pathParts r).length))

/-- `PurePosixPath(s).relative_to(PurePosixPath(r))`: `none` models the
`ValueError` raised when the anchors differ or `r` is not a component prefix
of `s`. -/
def relativeTo (s r : String) : Option String :=
  if isAbsolute s = isAbsolute r ∧ underRootB s r = true then
    some (relStringOf s r)
  else none

/-! ### `serialization.py` -/

/-- `RELATIVE_PATH_FIELDS` (a Python `set`; field order is irrelevant because
each update touches only its own key). -/
def relativePathFields : List String := ["output_root", "final_results", "center"]

mutual
/-- `_convert_paths_to_strings`: recursively turn `Path` values into their
strings and tuples into lists, leaving everything else unchanged. -/
def convertPathsToStrings : Value → Value
  | Value.vpath s => Value.vstr s
  | Value.vdict kvs => Value.vdict (convertPairs kvs)
  | Value.vlist vs => Value.vlist (convertList vs)
  | Value.vtuple vs => Value.vlist (convertList vs)
  | v => v

def convertList : List Value → List Value
  | [] => []
  | v :: vs => convertPathsToStrings v :: convertList vs

def convertPairs : List (String × Value) → List (String × Value)
  | [] => []
  | (k, v) :: kvs => (k, convertPathsToStrings v) :: convertPairs kvs
end

/-- `_maybe_relative`: rewrite an absolute path string to its form relative to
`root_path` when `prefer_relative` is set, the root is an absolute path, and
`relative_to` succeeds; otherwise return the value unchanged. -/
def maybeRelative (pathValue : Value) (rootPath : Option String) (preferRelative : Bool) : Value :=
  match preferRelative, rootPath, pathValue with
  | false, _, _ => pathValue
  | true, none, _ => pathValue
  | true, some root, Value.vstr s =>
    if isAbsolute s = false ∨ isAbsolute root = false then Value.vstr s
    else
      match relativeTo s root with
      | some r => Value.vstr r
      | none => Value.vstr s
  | true, some _, v => v

/-- The `root_path` computed by `serialize_config_to_yaml`: the value of the
`root` key when the (converted) data is a dict and that value is a non-empty
string. -/
def rootPathOfData (data : Value) : Option String :=
  match data with
  | Value.vdict m =>
    match lookupKey m "root" with
    | some (Value.vstr r) => if r = "" then none else some r
    | _ => none
  | _ => none

/-- The per-entry rewrite `serialize_config_to_yaml` performs on the converted
dict: the three `RELATIVE_PATH_FIELDS` entries go through `_maybe_relative`,
`flow_options` goes through `_maybe_relative` when its value is a string, and
every other entry is left alone. -/
def serializeEntryVal (rootPath : Option String) (preferRelative : Bool)
    (f : String) (v : Value) : Value :=
  if f ∈ relativePathFields then maybeRelative v rootPath preferRelative
  else if f = "flow_options" then
    match v with
    | Value.vstr s => maybeRelative (Value.vstr s) rootPath preferRelative
    | v => v
  else v

/-- The YAML data produced by `serialize_config_to_yaml` from the
`model_to_dict` output of the config (the final `yaml.safe_dump` and the
file write are outside the embedding; `sort_keys=False` keeps entry order). -/
def serializeConfigData (modelDict : Value) (preferRelative : Bool) : Value :=
  let data := convertPathsToStrings modelDict
  let rootPath := rootPathOfData data
  match data with
  | Value.vdict m =>
    Value.vdict (m.map (fun kv => (kv.1, serializeEntryVal rootPath preferRelative kv.1 kv.2)))
  | d => d

/-! ### `local_runner.py` -/

/-- The text of `RUNNER_SCRIPT`, the Python program passed to the worker
interpreter with `-c`. -/
def runnerScriptSource : String :=
  "\nimport sys\n\nfrom pyflowreg.session.config import SessionConfig\n"
    ++ "from pyflowreg.session.stage1_compensate import run_stage1\n"
    ++ "from pyflowreg.session.stage2_between_avgs import run_stage2\n"
    ++ "from pyflowreg.session.stage3_valid_mask import run_stage3\n\n\n"
    ++ "def main() -> None:\n"
    ++ "    cfg_path = sys.argv[1]\n"
    ++ "    mode = sys.argv[2]\n"
    ++ "    config = SessionConfig.from_file(cfg_path)\n"
    ++ "    print(f\"Loaded config: {cfg_path}\", flush=True)\n\n"
    ++ "    if mode == \"all\":\n"
    ++ "        print(\"Running Stage1\", flush=True)\n"
    ++ "        run_stage1(config)\n"
    ++ "        print(\"Running Stage2\", flush=True)\n"
    ++ "        middle_idx, avg, displacements = run_stage2(config)\n"
    ++ "        del avg\n"
    ++ "        print(f\"Running Stage3 (middle_idx={middle_idx})\", flush=True)\n"
    ++ "        run_stage3(config, middle_idx, displacements)\n"
    ++ "        print(\"Completed Stage1 -> Stage2 -> Stage3\", flush=True)\n"
    ++ "        return\n\n"
    ++ "    if mode == \"stage1\":\n"
    ++ "        run_stage1(config)\n"
    ++ "        print(\"Completed Stage1\", flush=True)\n"
    ++ "        return\n\n"
    ++ "    if mode == \"stage2\":\n"
    ++ "        middle_idx, avg, displacements = run_stage2(config)\n"
    ++ "        del avg, displacements\n"
    ++ "        print(f\"Completed Stage2 (middle_idx={middle_idx})\", flush=True)\n"
    ++ "        return\n\n"
    ++ "    if mode == \"stage3\":\n"
    ++ "        middle_idx, avg, displacements = run_stage2(config)\n"
    ++ "        del avg\n"
    ++ "        run_stage3(config, middle_idx, displacements)\n"
    ++ "        print(\"Completed Stage3 (after Stage2 preload)\", flush=True)\n"
    ++ "        return\n\n"
    ++ "    raise ValueError(f\"Unknown mode: {mode}\")\n\n\n"
    ++ "if __name__ == \"__main__\":\n"
    ++ "    main()\n"

/-- The three pipeline stages invoked by `RUNNER_SCRIPT`. -/
inductive Stage where
  | stage1
  | stage2
  | stage3
deriving DecidableEq

/-- The stage dispatch of `RUNNER_SCRIPT`'s `main`: which `run_stageN` calls
are made, in order, for a given `mode` string.  `Except.error` models the
`ValueError` raised for an unknown mode, before any stage has run.  The
`run_stageN` functions belong to the external `pyflowreg` library and are
abstracted to their labels. -/
def runnerMainStages (mode : String) : Except String (List Stage) :=
  if mode = "all" then Except.ok [Stage.stage1, Stage.stage2, Stage.stage3]
  else if mode = "stage1" then Except.ok [Stage.stage1]
  else if mode = "stage2" then Except.ok [Stage.stage2]
  else if mode = "stage3" then Except.ok [Stage.stage2, Stage.stage3]
  else Except.error ("Unknown mode: " ++ mode)

/-- `RUNNER_SCRIPT` argument reading: `cfg_path = sys.argv[1]` and
`mode = sys.argv[2]`; `none` models the `IndexError` raised when the
arguments are absent. -/
def runnerScriptArgv (argv : List String) : Option (String × String) :=
  match argv with
  | _ :: cfgPath :: mode :: _ => some (cfgPath, mode)
  | _ => none

/-- Modelled from CPython command-line semantics (external to the
repository): invoking the interpreter with the argument list
`["-u", "-c", cmd, a, b, ...]` executes `cmd` with
`sys.argv = ["-c", a, b, ...]`. -/
def pythonDashCArgv (args : List String) : Option (List String) :=
  match args with
  | "-u" :: "-c" :: _cmd :: rest => some ("-c" :: rest)
  | "-c" :: _cmd :: rest => some ("-c" :: rest)
  | _ => none

/-- The `QProcess` process states distinguished by `LocalRunner`. -/
inductive QProcState where
  | notRunning
  | starting
  | running
deriving DecidableEq

/-- The mutable state of a `LocalRunner`: its `_process` (abstracted to the
process state reported by `QProcess.state()`, `none` when `_process is
None`) and its `_tmpdir` (carried by the temporary directory name). -/
structure RunnerSim where
  process : Option QProcState
  tmpdir : Option String
deriving DecidableEq

/-- The Qt signals a `LocalRunner` can emit. -/
inductive RunnerSignal where
  | logEmitted (text : String)
  | runStarted
  | runFinished (exitCode : Int)
  | runFailed (message : String)
deriving DecidableEq

/-- `LocalRunner.is_running`: `self._process is not None and
self._process.state() != QProcess.NotRunning`. -/
def isRunning (s : RunnerSim) : Bool :=
  match s.process with
  | some ps => decide (ps ≠ QProcState.notRunning)
  | none => false

/-- The outcome of one `LocalRunner.start` call.  `error` is the message of
the `RuntimeError` raised, if any; `processesLaunched` counts the `QProcess`
objects created and started during the call, `tmpdirsCreated` the temporary
directories allocated; `args` is the list passed to `QProcess.setArguments`
for the launched worker (its program is `sys.executable`). -/
structure StartOutcome where
  error : Option String
  finalState : RunnerSim
  processesLaunched : Nat
  tmpdirsCreated : Nat
  args : Option (List String)
  runStartedEmitted : Bool
deriving DecidableEq

/-- `LocalRunner.start`.  `tmpName` is the name of the temporary directory
the call would allocate (so `str(Path(tmpName) / "session_config.yaml")` is
`tmpName ++ "/session_config.yaml"`), and `waitOk` is the outcome of
`process.waitForStarted(5000)`.  The YAML write into the temporary directory
is the serialization modelled by `serializeConfigData` with
`prefer_relative=True`. -/
def startRunner (s : RunnerSim) (tmpName : String) (mode : String) (waitOk : Bool) : StartOutcome :=
  if isRunning s then
    { error := some "A local run is already in progress.", finalState := s,
      processesLaunched := 0, tmpdirsCreated := 0, args := none, runStartedEmitted := false }
  else
    let configPath := tmpName ++ "/session_config.yaml"
    let args := ["-u", "-c", runnerScriptSource, configPath, mode]
    if waitOk then
      { error := none,
        finalState := { process := some QProcState.running, tmpdir := some tmpName },
        processesLaunched := 1, tmpdirsCreated := 1, args := some args,
        runStartedEmitted := true }
    else
      { error := some "Failed to start local worker subprocess.",
        finalState := { process := none, tmpdir := none },
        processesLaunched := 1, tmpdirsCreated := 1, args := some args,
        runStartedEmitted := false }

/-- The signals emitted by `LocalRunner._on_finished` for a given exit code,
in emission order. -/
def onFinishedEmits (exitCode : Int) : List RunnerSignal :=
  (if exitCode ≠ 0 then
    [RunnerSignal.runFailed ("Local run failed with exit code " ++ toString exitCode ++ ".")]
  else []) ++ [RunnerSignal.runFinished exitCode]

/-- `LocalRunner._on_finished`: emit `run_failed` for a non-zero exit code,
always emit `run_finished` carrying the exit code, then `_cleanup` (both
fields reset to `None`).  The `_exit_status` argument is unused by the
source, and the runner state on entry does not influence the emissions. -/
def onFinished (_s : RunnerSim) (exitCode : Int) : RunnerSim × List RunnerSignal :=
  (⟨none, none⟩, onFinishedEmits exitCode)

/-! ### `config_form.py` — helper value operations

`str()`, `bool()`, `int()` and `str.strip()` are CPython builtins used by the
synthesized closures; they are modelled here on the values of the embedding.
-/

mutual
/-- Modelled from CPython `repr()`: scalars exactly (`repr` of a string
quotes it; escaping inside strings and the `PosixPath(...)` wrapper of path
reprs are not modelled — no theorem depends on those clauses), containers
elementwise. -/
def pyReprOf : Value → String
  | Value.vstr s => "\x27" ++ s ++ "\x27"
  | Value.vint n => toString n
  | Value.vbool b => if b then "True" else "False"
  | Value.vnone => "None"
  | Value.vpath s => s
  | Value.vlist vs => "[" ++ pyReprSeq vs ++ "]"
  | Value.vtuple vs => "(" ++ pyReprSeq vs ++ ")"
  | Value.vdict kvs => "\x7b" ++ pyReprPairs kvs ++ "\x7d"

def pyReprSeq : List Value → String
  | [] => ""
  | [v] => pyReprOf v
  | v :: vs => pyReprOf v ++ ", " ++ pyReprSeq vs

def pyReprPairs : List (String × Value) → String
  | [] => ""
  | [(k, v)] => "\x27" ++ k ++ "\x27: " ++ pyReprOf v
  | (k, v) :: kvs => "\x27" ++ k ++ "\x27: " ++ pyReprOf v ++ ", " ++ pyReprPairs kvs
end

/-- Modelled from CPython `str()`: the identity on strings, `True`/`False`,
`None`, decimal ints, the string form of paths; containers render their
elements by `repr`, as in Python. -/
def pyStrOf : Value → String
  | Value.vstr s => s
  | Value.vint n => toString n
  | Value.vbool b => if b then "True" else "False"
  | Value.vnone => "None"
  | Value.vpath s => s
  | Value.vlist vs => "[" ++ pyReprSeq vs ++ "]"
  | Value.vtuple vs => "(" ++ pyReprSeq vs ++ ")"
  | Value.vdict kvs => "\x7b" ++ pyReprPairs kvs ++ "\x7d"

/-- The whitespace characters removed by Python `str.strip()` (ASCII
whitespace; further Unicode space classes are not modelled). -/
def isPySpace (c : Char) : Bool :=
  c = ' ' || c = '\t' || c = '\n' || c = '\r' || c = '\x0b' || c = '\x0c'

/-- Python `str.strip()` with no arguments. -/
def pyStrip (s : String) : String :=
  String.mk (((s.data.dropWhile isPySpace).reverse.dropWhile isPySpace).reverse)

/-- Modelled from CPython `bool()` truthiness on the values of the
embedding. -/
def pyBoolOf : Value → Bool
  | Value.vstr s => decide (s ≠ "")
  | Value.vint n => decide (n ≠ 0)
  | Value.vbool b => b
  | Value.vnone => false
  | Value.vpath _ => true
  | Value.vlist vs => !vs.isEmpty
  | Value.vtuple vs => !vs.isEmpty
  | Value.vdict kvs => !kvs.isEmpty

/-- The value of a non-empty all-digit decimal numeral. -/
def decDigits : List Char → Option Int
  | [] => none
  | cs =>
    if cs.all (fun c => c.isDigit) then
      some (cs.foldl (fun acc c => acc * 10 + ((c.toNat : Int) - 48)) 0)
    else none

/-- Modelled from CPython `int()` on the values of the embedding: ints pass
through, bools become 0/1, decimal strings (optionally signed, surrounded by
whitespace; underscore separators are not modelled) parse; everything else
raises. -/
def pyIntOf : Value → Except String Int
  | Value.vint n => Except.ok n
  | Value.vbool b => Except.ok (if b then 1 else 0)
  | Value.vstr s =>
    match
      (match (pyStrip s).data with
       | '+' :: rest => decDigits rest
       | '-' :: rest => (decDigits rest).map (fun n => -n)
       | cs => decDigits cs) with
    | some n => Except.ok n
    | none => Except.error ("invalid literal for int(): " ++ s)
  | _ => Except.error "int() argument must be a string or a number"

mutual
/-- Structural equality on `Value`, modelling the Python `==` comparisons of
the combo-box setters (container equality is elementwise, as in Python;
cross-type numeric equalities such as `True == 1` are not modelled). -/
def valueBeq : Value → Value → Bool
  | Value.vstr a, Value.vstr b => a == b
  | Value.vint a, Value.vint b => a == b
  | Value.vbool a, Value.vbool b => a == b
  | Value.vnone, Value.vnone => true
  | Value.vpath a, Value.vpath b => a == b
  | Value.vlist a, Value.vlist b => valueListBeq a b
  | Value.vtuple a, Value.vtuple b => valueListBeq a b
  | Value.vdict a, Value.vdict b => valuePairsBeq a b
  | _, _ => false

def valueListBeq : List Value → List Value → Bool
  | [], [] => true
  | a :: as_, b :: bs => valueBeq a b && valueListBeq as_ bs
  | _, _ => false

def valuePairsBeq : List (String × Value) → List (String × Value) → Bool
  | [], [] => true
  | (ka, va) :: as_, (kb, vb) :: bs => ka == kb && valueBeq va vb && valuePairsBeq as_ bs
  | _, _ => false
end

/-! ### `config_form.py` — annotations and editor dispatch -/

/-- A Python type annotation, as analysed by `_unwrap_optional` /
`_annotation_has_type` / `_create_editor`: the scalar types the dispatch
tests for, `Literal[...]` (with its argument values), `Enum` subclasses
(with their member values), unions, `NoneType`, and any other annotation
(tagged, e.g. parametrised generics), which falls through to the final
branch. -/
inductive PyAnn where
  | pyBool
  | pyInt
  | pyFloat
  | pyStr
  | pyPathT
  | pyDictT
  | pyNoneT
  | pyLiteral (args : List Value)
  | pyEnumT (values : List Value)
  | pyUnion (args : List PyAnn)
  | pyOther (tag : String)

/-- Is this annotation `NoneType`? (`arg is not type(None)`). -/
def PyAnn.isNoneT : PyAnn → Bool
  | PyAnn.pyNoneT => true
  | _ => false

/-- Is this annotation the `dict` type? (`base_annotation is dict`). -/
def PyAnn.isDictT : PyAnn → Bool
  | PyAnn.pyDictT => true
  | _ => false

/-- Is this annotation the `Path` type? (`base_annotation is Path`). -/
def PyAnn.isPathT : PyAnn → Bool
  | PyAnn.pyPathT => true
  | _ => false

/-- `_unwrap_optional`: a union whose non-`None` arguments are a single
annotation unwraps to it with `optional = True`; everything else is returned
unchanged with `optional = False`. -/
def unwrapOptional (ann : PyAnn) : PyAnn × Bool :=
  match ann with
  | PyAnn.pyUnion args =>
    match args.filter (fun a => !(PyAnn.isNoneT a)) with
    | [a] => (a, true)
    | _ => (ann, false)
  | _ => (ann, false)

mutual
/-- Structural size of an annotation, used as recursion fuel for
`annHasType` (every chain of `_annotation_has_type` recursions strictly
shrinks the annotation, so this fuel is sufficient). -/
def annSize : PyAnn → Nat
  | PyAnn.pyUnion args => 1 + annSizeList args
  | _ => 1

def annSizeList : List PyAnn → Nat
  | [] => 0
  | a :: as_ => annSize a + annSizeList as_
end

/-- `_annotation_has_type`, fuelled so the recursion through
`_unwrap_optional` is structural on the fuel (`annHasType` supplies
sufficient fuel): unwrap, test the base against the target type, and
otherwise recurse into the arguments of a union. -/
def annHasTypeFuel (isTarget : PyAnn → Bool) : Nat → PyAnn → Bool
  | 0, _ => false
  | fuel + 1, ann =>
    let base := (unwrapOptional ann).1
    if isTarget base then true
    else
      match base with
      | PyAnn.pyUnion args => args.any (annHasTypeFuel isTarget fuel)
      | _ => false

/-- `_annotation_has_type(annotation, target)` where `isTarget` identifies
the target type (`dict` or `Path` at the two call sites). -/
def annHasType (ann : PyAnn) (isTarget : PyAnn → Bool) : Bool :=
  annHasTypeFuel isTarget (annSize ann) ann

/-- The kind of editor widget (with its dispatch-relevant data) that
`_create_editor` synthesizes. -/
inductive EditorKind where
  | flowOptionsE
  | pathPickerE (pickDirectory : Bool)
  | checkBoxE
  | spinBoxE
  | doubleSpinBoxE
  | literalComboE (options : List Value)
  | enumComboE (values : List Value)
  | jsonTextE
  | optLineEditE
  | plainLineEditE

/-- The field names `_create_editor` special-cases into a
`PathPickerWidget`. -/
def specialPathFieldNames : List String := ["root", "output_root", "final_results", "center"]

/-- The `_create_editor` dispatch: which editor is synthesized for a field,
given its name and annotation, in source branch order (`flow_options` name,
path-picker names, bool, int, float, `Literal`, `Enum`, dict-bearing,
str/`Path`-bearing, fallback line edit). -/
def createEditorKind (fieldName : String) (ann : PyAnn) : EditorKind :=
  let base := (unwrapOptional ann).1
  if fieldName = "flow_options" then EditorKind.flowOptionsE
  else if fieldName ∈ specialPathFieldNames then
    EditorKind.pathPickerE (fieldName ≠ "center")
  else
    match base with
    | PyAnn.pyBool => EditorKind.checkBoxE
    | PyAnn.pyInt => EditorKind.spinBoxE
    | PyAnn.pyFloat => EditorKind.doubleSpinBoxE
    | PyAnn.pyLiteral args => EditorKind.literalComboE args
    | PyAnn.pyEnumT vals => EditorKind.enumComboE vals
    | PyAnn.pyDictT => EditorKind.jsonTextE
    | PyAnn.pyStr => EditorKind.optLineEditE
    | PyAnn.pyPathT => EditorKind.optLineEditE
    | base =>
      if annHasType base PyAnn.isDictT then EditorKind.jsonTextE
      else if annHasType base PyAnn.isPathT then EditorKind.optLineEditE
      else EditorKind.plainLineEditE

/-! ### `config_form.py` — editor state and form operations -/

/-- The outcome of `json.loads` (an external library function): a parsed
value or a `json.JSONDecodeError` message.  Theorems quantify over the
parser's behaviour. -/
inductive JsonResult where
  | ok (v : Value)
  | err (msg : String)

/-- The state of a synthesized editor widget: `QCheckBox`, `QSpinBox`,
`QComboBox` (item `userData` list and current index), the dict-field
`QPlainTextEdit`, the `QLineEdit` of the str/`Path` branch, the `QLineEdit`
of the fallback branch, the `PathPickerWidget` line edit, and the
`FlowOptionsEditor` (mode, inline JSON text, file-path text).
`QDoubleSpinBox` holds a float and is outside the embedding. -/
inductive EditorState where
  | checkSt (checked : Bool)
  | spinSt (value : Int)
  | comboSt (options : List Value) (index : Nat)
  | jsonSt (text : String)
  | lineSt (text : String)
  | plainLineSt (text : String)
  | pathSt (text : String)
  | flowSt (inlineMode : Bool) (inlineText : String) (fileText : String)

/-- The freshly constructed widget for each editor kind (Qt initial states:
unchecked box, spin value 0, combo at its first item, empty texts; the
`FlowOptionsEditor` constructor puts itself in inline mode). -/
def mkEditor : EditorKind → Option EditorState
  | EditorKind.flowOptionsE => some (EditorState.flowSt true "" "")
  | EditorKind.pathPickerE _ => some (EditorState.pathSt "")
  | EditorKind.checkBoxE => some (EditorState.checkSt false)
  | EditorKind.spinBoxE => some (EditorState.spinSt 0)
  | EditorKind.doubleSpinBoxE => none
  | EditorKind.literalComboE opts => some (EditorState.comboSt opts 0)
  | EditorKind.enumComboE vals => some (EditorState.comboSt vals 0)
  | EditorKind.jsonTextE => some (EditorState.jsonSt "")
  | EditorKind.optLineEditE => some (EditorState.lineSt "")
  | EditorKind.plainLineEditE => some (EditorState.plainLineSt "")

/-- The synthesized `resetter` closures, per editor. -/
def editorReset (optional : Bool) : EditorState → EditorState
  | EditorState.checkSt _ => EditorState.checkSt false
  | EditorState.spinSt _ => EditorState.spinSt 0
  | EditorState.comboSt opts i => EditorState.comboSt opts (if opts.length > 0 then 0 else i)
  | EditorState.jsonSt _ => EditorState.jsonSt (if optional then "" else "\x7b\x7d")
  | EditorState.lineSt _ => EditorState.lineSt ""
  | EditorState.plainLineSt _ => EditorState.plainLineSt ""
  | EditorState.pathSt _ => EditorState.pathSt ""
  | EditorState.flowSt _ _ _ => EditorState.flowSt true "\x7b\x7d" ""

/-- `QSpinBox.setValue` clamps to the range configured in `_create_editor`. -/
def clampSpin (n : Int) : Int := max (-1000000000) (min 1000000000 n)

/-- The synthesized `setter` closures (`jsonDumps` stands for the external
`json.dumps(value, indent=2)`).  `Except.error` models the exception an
`int()` conversion can raise inside the spin-box setter. -/
def applyEditorSetter (jsonDumps : Value → String) (st : EditorState) (v : Value) :
    Except String EditorState :=
  match st with
  | EditorState.checkSt _ => Except.ok (EditorState.checkSt (pyBoolOf v))
  | EditorState.spinSt _ =>
    match pyIntOf v with
    | Except.ok n => Except.ok (EditorState.spinSt (clampSpin n))
    | Except.error e => Except.error e
  | EditorState.comboSt opts i =>
    Except.ok (EditorState.comboSt opts
      (match opts.findIdx? (fun o => valueBeq o v) with
       | some j => j
       | none => i))
  | EditorState.jsonSt _ =>
    Except.ok (EditorState.jsonSt
      (match v with
       | Value.vnone => ""
       | v => jsonDumps v))
  | EditorState.lineSt _ =>
    Except.ok (EditorState.lineSt
      (match v with
       | Value.vnone => ""
       | v => pyStrOf v))
  | EditorState.plainLineSt _ =>
    Except.ok (EditorState.plainLineSt
      (match v with
       | Value.vnone => ""
       | v => pyStrOf v))
  | EditorState.pathSt _ =>
    Except.ok (EditorState.pathSt
      (match v with
       | Value.vnone => ""
       | v => pyStrOf v))
  | EditorState.flowSt _ it ft =>
    Except.ok
      (match v with
       | Value.vdict d => EditorState.flowSt true (jsonDumps (Value.vdict d)) ft
       | Value.vnone => EditorState.flowSt true "\x7b\x7d" ft
       | v => EditorState.flowSt false it (pyStrOf v))

/-- The synthesized `getter` closures (`parse` stands for the external
`json.loads`).  `Except.error` models the `ValueError` a getter raises. -/
def applyEditorGetter (parse : String → JsonResult) (fieldName : String) (optional : Bool) :
    EditorState → Except String Value
  | EditorState.checkSt c => Except.ok (Value.vbool c)
  | EditorState.spinSt n => Except.ok (Value.vint n)
  | EditorState.comboSt opts i => Except.ok (opts.getD i Value.vnone)
  | EditorState.jsonSt t =>
    let t0 := pyStrip t
    if t0 = "" then Except.ok (if optional then Value.vnone else Value.vdict [])
    else
      match parse t0 with
      | JsonResult.err e =>
        Except.error ("Invalid JSON for \x27" ++ fieldName ++ "\x27: " ++ e)
      | JsonResult.ok (Value.vdict m) => Except.ok (Value.vdict m)
      | JsonResult.ok _ =>
        Except.error ("Field \x27" ++ fieldName ++ "\x27 expects a JSON object.")
  | EditorState.lineSt t =>
    let t0 := pyStrip t
    if optional ∧ t0 = "" then Except.ok Value.vnone else Except.ok (Value.vstr t0)
  | EditorState.plainLineSt t => Except.ok (Value.vstr (pyStrip t))
  | EditorState.pathSt t =>
    let t0 := pyStrip t
    if optional ∧ t0 = "" then Except.ok Value.vnone else Except.ok (Value.vstr t0)
  | EditorState.flowSt inlineMode it ft =>
    if inlineMode then
      let t0 := pyStrip it
      if t0 = "" then Except.ok (Value.vdict [])
      else
        match parse t0 with
        | JsonResult.err e => Except.error ("Invalid flow_options JSON: " ++ e)
        | JsonResult.ok (Value.vdict m) => Except.ok (Value.vdict m)
        | JsonResult.ok _ => Except.error "Inline flow_options JSON must be an object."
    else Except.ok (Value.vstr (pyStrip ft))

/-- One form binding: the `optional` flag derived from the field's
annotation and the editor's current state (the closures themselves are
`applyEditorSetter`, `applyEditorGetter` and `editorReset`). -/
structure Binding where
  optional : Bool
  state : EditorState

/-- A field of the inspected model class, as produced by
`iter_model_fields` in `model_utils.py`: name, annotation, and default
(`none` models `MISSING`, i.e. a required field or an absent default). -/
structure ModelFieldSpec where
  name : String
  ann : PyAnn
  default : Option Value

/-- The `_create_editor` branches that call `binding.resetter()` when the
default is `MISSING` (flow_options, `Literal`, `Enum`, dict); the other
branches leave the fresh widget untouched. -/
def appliesResetWhenMissing : EditorKind → Bool
  | EditorKind.flowOptionsE => true
  | EditorKind.literalComboE _ => true
  | EditorKind.enumComboE _ => true
  | EditorKind.jsonTextE => true
  | _ => false

/-- `_create_editor`: build the binding for one field — kind dispatch, fresh
widget, then `binding.setter(default)` when a default exists, else possibly
`binding.resetter()`. -/
def mkBinding (jsonDumps : Value → String) (spec : ModelFieldSpec) : Except String Binding :=
  let k := createEditorKind spec.name spec.ann
  let opt := (unwrapOptional spec.ann).2
  match mkEditor k with
  | none => Except.error "QDoubleSpinBox editors are outside the embedding"
  | some st0 =>
    match spec.default with
    | some d =>
      match applyEditorSetter jsonDumps st0 d with
      | Except.ok st => Except.ok { optional := opt, state := st }
      | Except.error e => Except.error e
    | none =>
      Except.ok { optional := opt,
                  state := if appliesResetWhenMissing k then editorReset opt st0 else st0 }

/-- `SessionConfigForm.__init__`: one binding per model field, in field
order. -/
def buildForm (jsonDumps : Value → String) :
    List ModelFieldSpec → Except String (List (String × Binding))
  | [] => Except.ok []
  | spec :: rest =>
    match mkBinding jsonDumps spec with
    | Except.error e => Except.error e
    | Except.ok b =>
      match buildForm jsonDumps rest with
      | Except.error e => Except.error e
      | Except.ok r => Except.ok ((spec.name, b) :: r)

/-- One `set_form_data` step: run the setter of the binding named `name`, if
any (names without a binding are skipped, as in the source). -/
def setOneField (jsonDumps : Value → String) :
    List (String × Binding) → String → Value → Except String (List (String × Binding))
  | [], _, _ => Except.ok []
  | (n, b) :: rest, name, v =>
    if n = name then
      match applyEditorSetter jsonDumps b.state v with
      | Except.ok st => Except.ok ((n, { b with state := st }) :: rest)
      | Except.error e => Except.error e
    else
      match setOneField jsonDumps rest name v with
      | Except.ok r => Except.ok ((n, b) :: r)
      | Except.error e => Except.error e

/-- `SessionConfigForm.set_form_data`: run the setters for the given values
in order.  `set_from_config(config)` is
`set_form_data(model_to_dict(config))`, so its argument here is the model
instance's field dictionary. -/
def setFormData (jsonDumps : Value → String) :
    List (String × Binding) → List (String × Value) → Except String (List (String × Binding))
  | form, [] => Except.ok form
  | form, (name, v) :: rest =>
    match setOneField jsonDumps form name v with
    | Except.ok form2 => setFormData jsonDumps form2 rest
    | Except.error e => Except.error e

/-- `SessionConfigForm.get_form_data`: read every binding's getter, in form
order (a getter's `ValueError` propagates). -/
def getFormData (parse : String → JsonResult) :
    List (String × Binding) → Except String (List (String × Value))
  | [] => Except.ok []
  | (n, b) :: rest =>
    match applyEditorGetter parse n b.optional b.state with
    | Except.error e => Except.error e
    | Except.ok v =>
      match getFormData parse rest with
      | Except.error e => Except.error e
      | Except.ok vs => Except.ok ((n, v) :: vs)

/-- The str-or-optional-str annotation used to state the round-trip
behaviour of string-category fields. -/
def strAnnOf (optional : Bool) : PyAnn :=
  if optional then PyAnn.pyUnion [PyAnn.pyStr, PyAnn.pyNoneT] else PyAnn.pyStr

/-! ## Theorems -/

/-- C6: the runner script executes the pipeline stages in order — mode
`"all"` runs stage 1, then stage 2, then stage 3, each exactly once;
`"stage1"` only stage 1; `"stage2"` only stage 2; `"stage3"` stage 2 and
then stage 3; every other mode string raises `ValueError` (with the
`Unknown mode` message) and runs no stage. -/
theorem runnerMainStages_dispatch :
    runnerMainStages "all" = Except.ok [Stage.stage1, Stage.stage2, Stage.stage3]
    ∧ runnerMainStages "stage1" = Except.ok [Stage.stage1]
    ∧ runnerMainStages "stage2" = Except.ok [Stage.stage2]
    ∧ runnerMainStages "stage3" = Except.ok [Stage.stage2, Stage.stage3]
    ∧ ∀ mode, mode ≠ "all" → mode ≠ "stage1" → mode ≠ "stage2" → mode ≠ "stage3" →
        runnerMainStages mode = Except.error ("Unknown mode: " ++ mode) := by
  refine ⟨by simp [runnerMainStages], by simp [runnerMainStages],
    by simp [runnerMainStages], by simp [runnerMainStages], ?_⟩
  intro mode h1 h2 h3 h4
  simp [runnerMainStages, h1, h2, h3, h4]

/-- Witness for C6 at the concrete unknown mode `"bogus"`. -/
theorem runnerMainStages_dispatch_witness :
    runnerMainStages "bogus" = Except.error ("Unknown mode: " ++ "bogus") :=
  runnerMainStages_dispatch.2.2.2.2 "bogus" (by decide) (by decide) (by decide) (by decide)

/-- C4: `LocalRunner._on_finished` always emits `run_finished` carrying the
process exit code, emits `run_failed` (with a failure message) exactly when
the exit code is non-zero, emits nothing else, and afterwards the runner
holds no process and no temporary directory (no retry or recovery). -/
theorem onFinished_signals (s : RunnerSim) (c : Int) :
    RunnerSignal.runFinished c ∈ (onFinished s c).2
    ∧ ((∃ msg, RunnerSignal.runFailed msg ∈ (onFinished s c).2) ↔ c ≠ 0)
    ∧ (∀ sig, sig ∈ (onFinished s c).2 →
        sig = RunnerSignal.runFinished c ∨ ∃ msg, sig = RunnerSignal.runFailed msg)
    ∧ (onFinished s c).1 = ⟨none, none⟩ := by
  refine ⟨?_, ⟨?_, ?_⟩, ?_, rfl⟩
  · by_cases hc : c = 0 <;> simp [onFinished, onFinishedEmits, hc]
  · rintro ⟨msg, hmsg⟩
    by_cases hc : c = 0
    · simp [onFinished, onFinishedEmits, hc] at hmsg
    · exact hc
  · intro hc
    exact ⟨"Local run failed with exit code " ++ toString c ++ ".",
      by simp [onFinished, onFinishedEmits, hc]⟩
  · intro sig hsig
    by_cases hc : c = 0
    · subst hc
      simp [onFinished, onFinishedEmits] at hsig
      exact Or.inl hsig
    · simp [onFinished, onFinishedEmits, hc] at hsig
      rcases hsig with h | h
      · exact Or.inr ⟨_, h⟩
      · exact Or.inl h

/-- Witness for C4 at exit code 2 and an empty runner state. -/
theorem onFinished_signals_witness :
    RunnerSignal.runFinished 2 = RunnerSignal.runFinished 2
    ∨ ∃ msg, RunnerSignal.runFinished 2 = RunnerSignal.runFailed msg :=
  (onFinished_signals ⟨none, none⟩ 2).2.2.1 (RunnerSignal.runFinished 2)
    (by simp [onFinished, onFinishedEmits])

/-- C5: a `LocalRunner` supervises at most one process — when `is_running()`
is true, `start` raises `RuntimeError` and changes nothing (no process
created, no temporary directory allocated, state unchanged); when
`is_running()` is false, `start` allocates one temporary directory and
launches exactly one subprocess. -/
theorem startRunner_single (s : RunnerSim) (tmpName mode : String) (waitOk : Bool) :
    (isRunning s = true →
      startRunner s tmpName mode waitOk =
        { error := some "A local run is already in progress.", finalState := s,
          processesLaunched := 0, tmpdirsCreated := 0, args := none,
          runStartedEmitted := false })
    ∧ (isRunning s = false →
        (startRunner s tmpName mode waitOk).processesLaunched = 1
        ∧ (startRunner s tmpName mode waitOk).tmpdirsCreated = 1) := by
  constructor
  · intro h
    simp [startRunner, h]
  · intro h
    cases waitOk <;> simp [startRunner, h]

/-- Witness for C5: a runner with a running process rejects `start`
unchanged. -/
theorem startRunner_single_witness :
    startRunner ⟨some QProcState.running, none⟩ "/tmp/t" "all" true =
      { error := some "A local run is already in progress.",
        finalState := ⟨some QProcState.running, none⟩,
        processesLaunched := 0, tmpdirsCreated := 0, args := none,
        runStartedEmitted := false } :=
  (startRunner_single ⟨some QProcState.running, none⟩ "/tmp/t" "all" true).1 (by decide)

/-- C7: every launched worker invocation has as its trailing positional
arguments the serialized config path and then the run mode, and under the
CPython `-c` argv convention the runner script reads the config path back
from `sys.argv[1]` and the mode from `sys.argv[2]`. -/
theorem startRunner_argv (s : RunnerSim) (tmpName mode : String) (waitOk : Bool)
    (h : isRunning s = false) :
    (startRunner s tmpName mode waitOk).args =
      some ["-u", "-c", runnerScriptSource, tmpName ++ "/session_config.yaml", mode]
    ∧ pythonDashCArgv ["-u", "-c", runnerScriptSource, tmpName ++ "/session_config.yaml", mode]
      = some ["-c", tmpName ++ "/session_config.yaml", mode]
    ∧ runnerScriptArgv ["-c", tmpName ++ "/session_config.yaml", mode]
      = some (tmpName ++ "/session_config.yaml", mode) := by
  refine ⟨?_, ?_, rfl⟩
  · cases waitOk <;> simp [startRunner, h]
  · simp [pythonDashCArgv]

/-- Witness for C7 at a concrete idle runner state. -/
theorem startRunner_argv_witness :
    (startRunner ⟨none, none⟩ "/tmp/t" "all" true).args =
      some ["-u", "-c", runnerScriptSource, "/tmp/t" ++ "/session_config.yaml", "all"] :=
  (startRunner_argv ⟨none, none⟩ "/tmp/t" "all" true rfl).1

/-! ### Path lemmas -/

lemma splitOnSlashAux_no_slash :
    ∀ (cs acc : List Char), '/' ∉ acc → ∀ p ∈ splitOnSlashAux cs acc, '/' ∉ p := by
  intro cs
  induction cs with
  | nil =>
    intro acc hacc p hp
    simp only [splitOnSlashAux, List.mem_singleton] at hp
    subst hp
    exact fun h => hacc (List.mem_reverse.mp h)
  | cons c cs ih =>
    intro acc hacc p hp
    simp only [splitOnSlashAux] at hp
    by_cases hc : c = '/'
    · rw [if_pos hc] at hp
      rcases List.mem_cons.mp hp with h | h
      · subst h
        exact fun hh => hacc (List.mem_reverse.mp hh)
      · exact ih [] (by simp) p h
    · rw [if_neg hc] at hp
      refine ih (c :: acc) ?_ p hp
      intro hmem
      rcases List.mem_cons.mp hmem with h | h
      · exact hc h.symm
      · exact hacc h

lemma pathParts_no_slash (s : String) : ∀ p ∈ pathParts s, p ≠ [] ∧ '/' ∉ p := by
  intro p hp
  have h2 := List.mem_filter.mp hp
  have h3 : p ≠ [] ∧ p ≠ ['.'] := by simpa using h2.2
  exact ⟨h3.1, splitOnSlashAux_no_slash s.data [] (by simp) p h2.1⟩

lemma isAbsolute_joinParts (ps : List (List Char))
    (h : ∀ p ∈ ps, p ≠ [] ∧ '/' ∉ p) :
    isAbsolute (String.mk (joinParts ps)) = false := by
  cases ps with
  | nil => rfl
  | cons p ps2 =>
    rcases h p (by simp) with ⟨hne, hns⟩
    obtain ⟨c, cs, rfl⟩ : ∃ c cs, p = c :: cs := by
      cases p with
      | nil => exact absurd rfl hne
      | cons c cs => exact ⟨c, cs, rfl⟩
    have hc : c ≠ '/' := fun hh => hns (by rw [hh]; exact List.mem_cons_self _ _)
    cases ps2 with
    | nil => simp [joinParts, joinParts1, isAbsolute, hc]
    | cons q qs => simp [joinParts, joinParts1, isAbsolute, hc]

lemma relStringOf_not_abs (s r : String) : isAbsolute (relStringOf s r) = false := by
  unfold relStringOf
  apply isAbsolute_joinParts
  intro p hp
  exact pathParts_no_slash s p (List.drop_subset _ _ hp)

lemma relativeTo_isAbsolute (s r rel : String) (h : relativeTo s r = some rel) :
    isAbsolute rel = false := by
  unfold relativeTo at h
  split at h
  · cases h
    exact relStringOf_not_abs s r
  · cases h

/-! ### `_maybe_relative` lemmas -/

lemma maybeRelative_rewrites (s r : String) (habs_s : isAbsolute s = true)
    (habs_r : isAbsolute r = true) (hunder : underRootB s r = true) :
    maybeRelative (Value.vstr s) (some r) true = Value.vstr (relStringOf s r) := by
  simp [maybeRelative, habs_s, habs_r, relativeTo, hunder]

lemma maybeRelative_unchanged (v : Value) (root : Option String) (pr : Bool)
    (h : ¬(pr = true ∧ ∃ r, root = some r ∧ isAbsolute r = true ∧
          ∃ s, v = Value.vstr s ∧ isAbsolute s = true ∧ underRootB s r = true)) :
    maybeRelative v root pr = v := by
  cases pr with
  | false => rfl
  | true =>
    cases root with
    | none => rfl
    | some r =>
      cases v with
      | vstr s =>
        by_cases habs : isAbsolute s = false ∨ isAbsolute r = false
        · simp [maybeRelative, habs]
        · push_neg at habs
          obtain ⟨hs, hr⟩ := habs
          have hs2 : isAbsolute s = true := by
            cases hq : isAbsolute s
            · exact absurd hq hs
            · rfl
          have hr2 : isAbsolute r = true := by
            cases hq : isAbsolute r
            · exact absurd hq hr
            · rfl
          have hu : underRootB s r = false := by
            cases hq : underRootB s r
            · rfl
            · exact absurd ⟨rfl, r, rfl, hr2, s, rfl, hs2, hq⟩ h
          simp [maybeRelative, hs2, hr2, relativeTo, hu]
      | vint n => rfl
      | vbool b => rfl
      | vnone => rfl
      | vpath s => rfl
      | vlist vs => rfl
      | vtuple vs => rfl
      | vdict kvs => rfl

/-- C9: `_maybe_relative` is idempotent — applying it twice gives the result
of applying it once, for every value, root and `prefer_relative` flag: a
successful rewrite yields a relative (non-absolute) string, which the second
application returns unchanged, and all other inputs already pass through
unchanged. -/
theorem maybeRelative_idempotent (v : Value) (root : Option String) (pr : Bool) :
    maybeRelative (maybeRelative v root pr) root pr = maybeRelative v root pr := by
  cases pr with
  | false => rfl
  | true =>
    cases root with
    | none => rfl
    | some r =>
      cases v with
      | vstr s =>
        by_cases habs : isAbsolute s = false ∨ isAbsolute r = false
        · simp [maybeRelative, habs]
        · cases hrel : relativeTo s r with
          | none => simp [maybeRelative, habs, hrel]
          | some rel =>
            have hrelabs := relativeTo_isAbsolute s r rel hrel
            simp [maybeRelative, habs, hrel, hrelabs]
      | vint n => rfl
      | vbool b => rfl
      | vnone => rfl
      | vpath s => rfl
      | vlist vs => rfl
      | vtuple vs => rfl
      | vdict kvs => rfl

/-! ### `serialize_config_to_yaml` lemmas -/

lemma lookupKey_map (m : List (String × Value)) (g : String → Value → Value) (f : String) :
    lookupKey (m.map (fun kv => (kv.1, g kv.1 kv.2))) f = (lookupKey m f).map (g f) := by
  induction m with
  | nil => rfl
  | cons kv rest ih =>
    obtain ⟨k, v⟩ := kv
    by_cases hk : k = f
    · subst hk
      simp [lookupKey]
    · simp [lookupKey, hk, ih]

lemma serializeConfigData_dict (modelDict : Value) (pr : Bool) (m : List (String × Value))
    (hconv : convertPathsToStrings modelDict = Value.vdict m) :
    serializeConfigData modelDict pr =
      Value.vdict (m.map (fun kv =>
        (kv.1, serializeEntryVal (rootPathOfData (Value.vdict m)) pr kv.1 kv.2))) := by
  simp only [serializeConfigData]
  rw [hconv]

/-- C1: in the dumped YAML data, each of `output_root`, `final_results`,
`center` (and `flow_options` when its value is a string) is rewritten to the
path relative to the `root` field exactly when `prefer_relative` holds, the
`root` field is a non-empty string naming an absolute path, the field's
value is a string naming an absolute path, and that path lies under the
root; in every other case the field's value is written unchanged.  The
rewritten value is a relative (non-absolute) path string. -/
theorem serialize_relative_path_fields
    (modelDict : Value) (pr : Bool) (m : List (String × Value)) (f : String) (v : Value)
    (hconv : convertPathsToStrings modelDict = Value.vdict m)
    (hlook : lookupKey m f = some v)
    (hf : f ∈ relativePathFields ∨ (f = "flow_options" ∧ ∃ s, v = Value.vstr s)) :
    ∃ m2, serializeConfigData modelDict pr = Value.vdict m2
      ∧ (∀ r s, rootPathOfData (Value.vdict m) = some r → v = Value.vstr s →
          pr = true → isAbsolute r = true → isAbsolute s = true → underRootB s r = true →
          lookupKey m2 f = some (Value.vstr (relStringOf s r))
          ∧ isAbsolute (relStringOf s r) = false)
      ∧ (¬(pr = true ∧ ∃ r, rootPathOfData (Value.vdict m) = some r ∧ isAbsolute r = true ∧
            ∃ s, v = Value.vstr s ∧ isAbsolute s = true ∧ underRootB s r = true) →
          lookupKey m2 f = some v) := by
  refine ⟨_, serializeConfigData_dict modelDict pr m hconv, ?_, ?_⟩
  · intro r s hroot hv hpr habs_r habs_s hunder
    subst hv
    subst hpr
    refine ⟨?_, relStringOf_not_abs s r⟩
    rw [lookupKey_map m (serializeEntryVal (rootPathOfData (Value.vdict m)) true) f, hlook]
    rcases hf with hmem | ⟨hfo, _⟩
    · simp [serializeEntryVal, hmem, hroot, maybeRelative_rewrites s r habs_s habs_r hunder]
    · subst hfo
      simp [serializeEntryVal, show ("flow_options" : String) ∉ relativePathFields by decide,
        hroot, maybeRelative_rewrites s r habs_s habs_r hunder]
  · intro hnc
    have hm := maybeRelative_unchanged v (rootPathOfData (Value.vdict m)) pr hnc
    rw [lookupKey_map m (serializeEntryVal (rootPathOfData (Value.vdict m)) pr) f, hlook]
    rcases hf with hmem | ⟨hfo, s, hv⟩
    · simp [serializeEntryVal, hmem, hm]
    · subst hfo
      subst hv
      simp [serializeEntryVal, show ("flow_options" : String) ∉ relativePathFields by decide, hm]

/-- Witness for C1 at a concrete config dict whose `output_root` lies under
its absolute `root`. -/
theorem serialize_relative_path_fields_witness :
    ∃ m2, serializeConfigData
        (Value.vdict [("root", Value.vstr "/data"), ("output_root", Value.vstr "/data/out")])
        true = Value.vdict m2
      ∧ lookupKey m2 "output_root" = some (Value.vstr (relStringOf "/data/out" "/data")) := by
  obtain ⟨m2, h1, h2, _⟩ := serialize_relative_path_fields
    (Value.vdict [("root", Value.vstr "/data"), ("output_root", Value.vstr "/data/out")])
    true
    [("root", Value.vstr "/data"), ("output_root", Value.vstr "/data/out")]
    "output_root" (Value.vstr "/data/out") (by simp [convertPathsToStrings, convertPairs])
    (by simp [lookupKey]) (Or.inl (by decide))
  exact ⟨m2, h1,
    (h2 "/data" "/data/out" (by decide) rfl rfl (by decide) (by decide) (by decide)).1⟩

/-- C8: `serialize_config_to_yaml` modifies only `output_root`,
`final_results`, `center` and a string-valued `flow_options`; every other
field of the dumped data — including `root` itself — is written exactly as
produced by `model_to_dict` after the recursive `Path`-to-string and
tuple-to-list conversion, whose action on each constructor is also stated
(atoms pass through unchanged, and a non-dict top level is dumped as
converted). -/
theorem serialize_frame (modelDict : Value) (pr : Bool) :
    (∀ m f v, convertPathsToStrings modelDict = Value.vdict m →
        lookupKey m f = some v → f ∉ relativePathFields → f ≠ "flow_options" →
        ∃ m2, serializeConfigData modelDict pr = Value.vdict m2 ∧ lookupKey m2 f = some v)
    ∧ (∀ m v, convertPathsToStrings modelDict = Value.vdict m →
        lookupKey m "flow_options" = some v → (∀ s, v ≠ Value.vstr s) →
        ∃ m2, serializeConfigData modelDict pr = Value.vdict m2
          ∧ lookupKey m2 "flow_options" = some v)
    ∧ ((∀ m, convertPathsToStrings modelDict ≠ Value.vdict m) →
        serializeConfigData modelDict pr = convertPathsToStrings modelDict)
    ∧ (∀ s, convertPathsToStrings (Value.vpath s) = Value.vstr s)
    ∧ (∀ vs, convertPathsToStrings (Value.vtuple vs) = Value.vlist (convertList vs))
    ∧ (∀ vs, convertPathsToStrings (Value.vlist vs) = Value.vlist (convertList vs))
    ∧ (∀ kvs, convertPathsToStrings (Value.vdict kvs) = Value.vdict (convertPairs kvs))
    ∧ (∀ s, convertPathsToStrings (Value.vstr s) = Value.vstr s)
    ∧ (∀ n, convertPathsToStrings (Value.vint n) = Value.vint n)
    ∧ (∀ b, convertPathsToStrings (Value.vbool b) = Value.vbool b)
    ∧ convertPathsToStrings Value.vnone = Value.vnone := by
  refine ⟨?_, ?_, ?_, fun s => rfl, fun vs => rfl, fun vs => rfl, fun kvs => rfl,
    fun s => rfl, fun n => rfl, fun b => rfl, rfl⟩
  · intro m f v hconv hlook hnmem hnfo
    refine ⟨_, serializeConfigData_dict modelDict pr m hconv, ?_⟩
    rw [lookupKey_map m (serializeEntryVal (rootPathOfData (Value.vdict m)) pr) f, hlook]
    simp [serializeEntryVal, hnmem, hnfo]
  · intro m v hconv hlook hns
    refine ⟨_, serializeConfigData_dict modelDict pr m hconv, ?_⟩
    rw [lookupKey_map m (serializeEntryVal (rootPathOfData (Value.vdict m)) pr) "flow_options",
      hlook]
    have hnmem : ("flow_options" : String) ∉ relativePathFields := by decide
    cases v with
    | vstr s => exact absurd rfl (hns s)
    | vint n => simp [serializeEntryVal, hnmem]
    | vbool b => simp [serializeEntryVal, hnmem]
    | vnone => simp [serializeEntryVal, hnmem]
    | vpath s => simp [serializeEntryVal, hnmem]
    | vlist vs => simp [serializeEntryVal, hnmem]
    | vtuple vs => simp [serializeEntryVal, hnmem]
    | vdict kvs => simp [serializeEntryVal, hnmem]
  · intro hnd
    simp only [serializeConfigData]

/-- Witness for C8: a field outside the rewritten set (here `root` itself)
passes through unchanged. -/
theorem serialize_frame_witness :
    ∃ m2, serializeConfigData
        (Value.vdict [("root", Value.vstr "/data"), ("output_root", Value.vstr "/data/out")])
        true = Value.vdict m2
      ∧ lookupKey m2 "root" = some (Value.vstr "/data") :=
  (serialize_frame
    (Value.vdict [("root", Value.vstr "/data"), ("output_root", Value.vstr "/data/out")])
    true).1
    [("root", Value.vstr "/data"), ("output_root", Value.vstr "/data/out")]
    "root" (Value.vstr "/data") (by simp [convertPathsToStrings, convertPairs])
    (by simp [lookupKey]) (by decide) (by decide)

/-! ### Form theorems -/

/-- Counterexample to C3 as stated: the `_create_editor` dispatch does
depend on the field name — two fields with the same annotation (plain
`str`) receive different editors, because the name `flow_options` is
special-cased to the `FlowOptionsEditor` while a generic name gets the
line-edit editor. -/
theorem createEditorKind_name_dependent_counterexample :
    createEditorKind "flow_options" PyAnn.pyStr = EditorKind.flowOptionsE
    ∧ createEditorKind "title" PyAnn.pyStr = EditorKind.optLineEditE
    ∧ EditorKind.flowOptionsE ≠ EditorKind.optLineEditE :=
  ⟨rfl, rfl, fun h => nomatch h⟩

/-- C3 amended: for every field name outside the special-cased set
`flow_options`, `root`, `output_root`, `final_results`, `center`, the
synthesized editor is determined solely by the field's type annotation (the
same annotation always yields the same editor kind, whatever the name); the
five special names receive their dedicated editors (`FlowOptionsEditor`,
directory/file `PathPickerWidget`) regardless of annotation. -/
theorem createEditorKind_name_independent (n1 n2 : String) (ann : PyAnn)
    (h1f : n1 ≠ "flow_options") (h1p : n1 ∉ specialPathFieldNames)
    (h2f : n2 ≠ "flow_options") (h2p : n2 ∉ specialPathFieldNames) :
    createEditorKind n1 ann = createEditorKind n2 ann
    ∧ (∀ ann2, createEditorKind "flow_options" ann2 = EditorKind.flowOptionsE)
    ∧ (∀ ann2 nm, nm ∈ specialPathFieldNames →
        createEditorKind nm ann2 = EditorKind.pathPickerE (nm ≠ "center")) := by
  refine ⟨?_, fun ann2 => rfl, ?_⟩
  · simp [createEditorKind, h1f, h1p, h2f, h2p]
  · intro ann2 nm hmem
    have hnf : nm ≠ "flow_options" := by
      intro h
      subst h
      revert hmem
      decide
    simp [createEditorKind, hnf, hmem]

/-- Witness for the amended C3 at two concrete generic field names. -/
theorem createEditorKind_name_independent_witness :
    createEditorKind "alpha" PyAnn.pyInt = createEditorKind "beta" PyAnn.pyInt :=
  (createEditorKind_name_independent "alpha" "beta" PyAnn.pyInt (by decide) (by decide)
    (by decide) (by decide)).1

/-- Counterexample to C2 as stated: the form does not round-trip every model
value.  For a required `str` field holding `" x "`, `set_from_config`
followed by `get_form_data` returns `"x"`: the synthesized getter strips
surrounding whitespace, so the value read back differs from the model's
value. -/
theorem form_roundtrip_counterexample :
    buildForm (fun _ => "") [⟨"title", PyAnn.pyStr, none⟩]
      = Except.ok [("title", ⟨false, EditorState.lineSt ""⟩)]
    ∧ setFormData (fun _ => "") [("title", ⟨false, EditorState.lineSt ""⟩)]
        [("title", Value.vstr " x ")]
      = Except.ok [("title", ⟨false, EditorState.lineSt " x "⟩)]
    ∧ getFormData (fun _ => JsonResult.err "") [("title", ⟨false, EditorState.lineSt " x "⟩)]
      = Except.ok [("title", Value.vstr "x")]
    ∧ Value.vstr "x" ≠ Value.vstr " x " := by
  refine ⟨rfl, rfl, rfl, ?_⟩
  intro h
  injection h with h2
  exact absurd h2 (by decide)

/-- C2 amended: `set_from_config` followed by `get_form_data` returns each
field's value up to the editor's normalization; for string-category fields
the getter returns the whitespace-stripped text, reading back `None` when
the field is optional and the stripped text is empty — so the round-trip is
the identity exactly on string values with no surrounding whitespace that
are, for optional fields, non-empty.  (Other categories normalize
analogously: the spin box clamps to its range, combo boxes keep their
current item when no option matches, dict editors re-serialize through
JSON; the float editor lies outside the embedding.) -/
theorem form_strField_roundtrip (dumps : Value → String) (parse : String → JsonResult)
    (o : Bool) (s : String) :
    buildForm dumps [⟨"title", strAnnOf o, none⟩]
      = Except.ok [("title", ⟨o, EditorState.lineSt ""⟩)]
    ∧ setFormData dumps [("title", ⟨o, EditorState.lineSt ""⟩)] [("title", Value.vstr s)]
      = Except.ok [("title", ⟨o, EditorState.lineSt s⟩)]
    ∧ getFormData parse [("title", ⟨o, EditorState.lineSt s⟩)]
      = Except.ok [("title",
          if o ∧ pyStrip s = "" then Value.vnone else Value.vstr (pyStrip s))] := by
  refine ⟨?_, rfl, ?_⟩
  · cases o <;> rfl
  · cases o with
    | false => simp [getFormData, applyEditorGetter]
    | true =>
      by_cases hs : pyStrip s = "" <;> simp [getFormData, applyEditorGetter, hs]

/-- C10: the getter of a dict-annotated field returns `None` for empty text
when the field is optional, the empty dict for empty text when it is not,
the parsed dictionary for a JSON object, and raises `ValueError` for
invalid JSON or a non-object; `FlowOptionsEditor.get_value` in inline mode
behaves the same except that empty text always yields the empty dict.
Dict-bearing annotations (outside the special-cased names) do receive this
editor. -/
theorem dict_getter_cases (parse : String → JsonResult) (name : String) (o : Bool)
    (t : String) :
    (pyStrip t = "" →
      applyEditorGetter parse name o (EditorState.jsonSt t)
        = Except.ok (if o then Value.vnone else Value.vdict []))
    ∧ (∀ m, pyStrip t ≠ "" → parse (pyStrip t) = JsonResult.ok (Value.vdict m) →
        applyEditorGetter parse name o (EditorState.jsonSt t) = Except.ok (Value.vdict m))
    ∧ (∀ e, pyStrip t ≠ "" → parse (pyStrip t) = JsonResult.err e →
        applyEditorGetter parse name o (EditorState.jsonSt t)
          = Except.error ("Invalid JSON for \x27" ++ name ++ "\x27: " ++ e))
    ∧ (∀ v, pyStrip t ≠ "" → parse (pyStrip t) = JsonResult.ok v →
        (∀ m, v ≠ Value.vdict m) →
        applyEditorGetter parse name o (EditorState.jsonSt t)
          = Except.error ("Field \x27" ++ name ++ "\x27 expects a JSON object."))
    ∧ (∀ ft, pyStrip t = "" →
        applyEditorGetter parse name o (EditorState.flowSt true t ft)
          = Except.ok (Value.vdict []))
    ∧ (∀ ft m, pyStrip t ≠ "" → parse (pyStrip t) = JsonResult.ok (Value.vdict m) →
        applyEditorGetter parse name o (EditorState.flowSt true t ft)
          = Except.ok (Value.vdict m))
    ∧ (∀ ft e, pyStrip t ≠ "" → parse (pyStrip t) = JsonResult.err e →
        applyEditorGetter parse name o (EditorState.flowSt true t ft)
          = Except.error ("Invalid flow_options JSON: " ++ e))
    ∧ (∀ ft v, pyStrip t ≠ "" → parse (pyStrip t) = JsonResult.ok v →
        (∀ m, v ≠ Value.vdict m) →
        applyEditorGetter parse name o (EditorState.flowSt true t ft)
          = Except.error "Inline flow_options JSON must be an object.")
    ∧ (∀ nm, nm ≠ "flow_options" → nm ∉ specialPathFieldNames →
        createEditorKind nm PyAnn.pyDictT = EditorKind.jsonTextE
        ∧ createEditorKind nm (PyAnn.pyUnion [PyAnn.pyDictT, PyAnn.pyStr, PyAnn.pyNoneT])
            = EditorKind.jsonTextE) := by
  refine ⟨?_, ?_, ?_, ?_, ?_, ?_, ?_, ?_, ?_⟩
  · intro he
    simp [applyEditorGetter, he]
  · intro m hne hp
    simp [applyEditorGetter, hne, hp]
  · intro e hne hp
    simp [applyEditorGetter, hne, hp]
  · intro v hne hp hnv
    cases v with
    | vdict m => exact absurd rfl (hnv m)
    | vstr s => simp [applyEditorGetter, hne, hp]
    | vint n => simp [applyEditorGetter, hne, hp]
    | vbool b => simp [applyEditorGetter, hne, hp]
    | vnone => simp [applyEditorGetter, hne, hp]
    | vpath s => simp [applyEditorGetter, hne, hp]
    | vlist vs => simp [applyEditorGetter, hne, hp]
    | vtuple vs => simp [applyEditorGetter, hne, hp]
  · intro ft he
    simp [applyEditorGetter, he]
  · intro ft m hne hp
    simp [applyEditorGetter, hne, hp]
  · intro ft e hne hp
    simp [applyEditorGetter, hne, hp]
  · intro ft v hne hp hnv
    cases v with
    | vdict m => exact absurd rfl (hnv m)
    | vstr s => simp [applyEditorGetter, hne, hp]
    | vint n => simp [applyEditorGetter, hne, hp]
    | vbool b => simp [applyEditorGetter, hne, hp]
    | vnone => simp [applyEditorGetter, hne, hp]
    | vpath s => simp [applyEditorGetter, hne, hp]
    | vlist vs => simp [applyEditorGetter, hne, hp]
    | vtuple vs => simp [applyEditorGetter, hne, hp]
  · intro nm hnf hnp
    constructor
    · simp [createEditorKind, hnf, hnp, unwrapOptional]
    · simp [createEditorKind, hnf, hnp, unwrapOptional, PyAnn.isNoneT, annHasType,
        annHasTypeFuel, annSize, annSizeList, PyAnn.isDictT]

/-- Witness for C10: a parser returning an object makes the dict getter
return that object. -/
theorem dict_getter_cases_witness :
    applyEditorGetter (fun _ => JsonResult.ok (Value.vdict [])) "opts" false
      (EditorState.jsonSt "x") = Except.ok (Value.vdict []) :=
  (dict_getter_cases (fun _ => JsonResult.ok (Value.vdict [])) "opts" false "x").2.1 []
    (by decide) rfl
